import Mathlib

/-!
Verification of the request-lifecycle controller in `src/Request.js`
(react-requests): a shallow embedding of the component's pure decision
logic — config extraction (`getConfig`), the update-path change check
(`componentDidUpdate`), the cache bridge (`getCachedResponse`,
`cacheResponseInterceptor`) and the `fire()` lifecycle state machine —
together with theorems about the embedded definitions.

Conventions of the embedding:
* JavaScript values carried by props (headers, params, data, auth) are
  modelled by the inductive `JSValue`; `JSON.stringify` is modelled by
  `jsonStringifyVal` (undefined-valued object keys are dropped,
  `undefined` array elements serialize as `null`, top-level `undefined`
  has no serialization).
* Machine numbers are `Nat`/`Int`; the only arithmetic on them is the
  status classification `Math.round(status / 100)`, which for a natural
  status `s` in the HTTP range equals `(s + 50) / 100` in natural
  division (JavaScript `Math.round` rounds half-up, and `s / 100` is
  computed exactly at the half-integer boundaries `s = 100k + 50`).
* The asynchronous transport is an oracle input `TransportResult`
  (resolve with a response, or reject with a fault); a single `fire()`
  invocation is the function `fire`, which returns the ordered list of
  observable events of that invocation together with the final
  component state.
* `setState` merges are explicit: the four literal `setState` payloads
  of the source are the constructors of `SetStateArg`, applied by
  `applySetState`.
-/

/-- Model of a JavaScript value as carried by the component's props and
responses: `undefined`, `null`, booleans, (integer) numbers, strings,
arrays, and objects as ordered key/value lists (JS object keys keep
insertion order, which `JSON.stringify` observes). -/
inductive JSValue where
  | undef : JSValue
  | null : JSValue
  | bool : Bool → JSValue
  | num : Int → JSValue
  | str : String → JSValue
  | arr : List JSValue → JSValue
  | obj : List (String × JSValue) → JSValue

/-- Minimal JSON string escaping (backslash and double quote), as done by
`JSON.stringify` for the characters used in this development. -/
def jsonEscapeChar (c : Char) : String :=
  if c = '\\' then "\\\\"
  else if c = '"' then "\\\""
  else String.singleton c

/-- Escape a string for inclusion in JSON output. -/
def jsonEscape (s : String) : String :=
  String.join (s.toList.map jsonEscapeChar)

mutual

/-- Model of `JSON.stringify`: `undefined` has no serialization (`none`),
object entries whose value is `undefined` are dropped, `undefined` array
elements serialize as `null`, and object entries appear in insertion
order. -/
def jsonStringifyVal : JSValue → Option String
  | .undef => none
  | .null => some "null"
  | .bool b => some (if b then "true" else "false")
  | .num n => some (toString n)
  | .str s => some ("\"" ++ jsonEscape s ++ "\"")
  | .arr xs => some ("[" ++ jsonStringifyArr xs ++ "]")
  | .obj kvs => some ("\x7b" ++ jsonStringifyObj kvs ++ "\x7d")

/-- Serialize the elements of a JSON array, comma separated; `undefined`
elements become `null`. -/
def jsonStringifyArr : List JSValue → String
  | [] => ""
  | [x] => (jsonStringifyVal x).getD "null"
  | x :: y :: rest => (jsonStringifyVal x).getD "null" ++ "," ++ jsonStringifyArr (y :: rest)

/-- Serialize the entries of a JSON object, dropping entries whose value
is `undefined`. -/
def jsonStringifyObj : List (String × JSValue) → String
  | [] => ""
  | (k, v) :: rest =>
    match jsonStringifyVal v with
    | none => jsonStringifyObj rest
    | some sv =>
      let entry := "\"" ++ jsonEscape k ++ "\":" ++ sv
      let tail := jsonStringifyObj rest
      if tail = "" then entry else entry ++ "," ++ tail

end

/-- Look up a key in an object's key/value list (first match wins, as for
JS objects, whose keys are unique). -/
def lookupKey (k : String) : List (String × JSValue) → Option JSValue
  | [] => none
  | (k2, v) :: rest => if k2 = k then some v else lookupKey k rest

/-- Modelled from the spec: "Two RequestConfig values are compared by deep
structural equality to detect 'did parameters change'". Deep structural
equality in the standard JavaScript sense (Node `assert.deepStrictEqual`):
primitives by value, arrays element-wise, objects by equal key sets with
deeply-equal values, insensitive to object key insertion order. The fuel
argument bounds the recursion depth; `deepStructuralEq` supplies ample
fuel. This definition follows the spec's words and is compared against
the source's `JSON.stringify`-based check. -/
def deepEqualFuel : Nat → JSValue → JSValue → Bool
  | 0, _, _ => false
  | _ + 1, .undef, .undef => true
  | _ + 1, .null, .null => true
  | _ + 1, .bool a, .bool b => a == b
  | _ + 1, .num a, .num b => a == b
  | _ + 1, .str a, .str b => a == b
  | n + 1, .arr a, .arr b =>
      a.length == b.length && (a.zip b).all (fun pr => deepEqualFuel n pr.1 pr.2)
  | n + 1, .obj a, .obj b =>
      a.all (fun kv =>
        match lookupKey kv.1 b with
        | some w => deepEqualFuel n kv.2 w
        | none => false) &&
      b.all (fun kv => (lookupKey kv.1 a).isSome)
  | _ + 1, _, _ => false

mutual

/-- Nesting depth of a JS value (leaves have depth 1): an upper bound on
the recursion depth of a deep-equality traversal starting at the value. -/
def jsDepth : JSValue → Nat
  | .undef => 1
  | .null => 1
  | .bool _ => 1
  | .num _ => 1
  | .str _ => 1
  | .arr xs => jsDepthArr xs + 1
  | .obj kvs => jsDepthObj kvs + 1

/-- Maximum depth of the elements of an array. -/
def jsDepthArr : List JSValue → Nat
  | [] => 0
  | x :: rest => max (jsDepth x) (jsDepthArr rest)

/-- Maximum depth of the values of an object. -/
def jsDepthObj : List (String × JSValue) → Nat
  | [] => 0
  | kv :: rest => max (jsDepth kv.2) (jsDepthObj rest)

end

/-- Deep structural equality of two JS values (see `deepEqualFuel`): the
fuel `jsDepth a` bounds the traversal depth, since every recursive call
descends into a strict subvalue of the first argument. -/
def deepStructuralEq (a b : JSValue) : Bool :=
  deepEqualFuel (jsDepth a) a b

/-- Modelled from the spec: the request lifecycle status constants of
`src/States.js` (imported by `Request.js` as `STATE.*` but not present
under `src/`): "Status: enumerated variant, one of INIT, START, SUCCESS,
FAILURE, ERROR". -/
inductive Status where
  | INIT : Status
  | START : Status
  | SUCCESS : Status
  | FAILURE : Status
  | ERROR : Status
deriving DecidableEq

/-- The component's props. The eleven config fields follow the
`propTypes` contract of the source: `url` a (required) string, `method`
and the other scalar fields optional strings/numbers (`none` =
`undefined`), while `headers`, `params`, `data` and `auth` are arbitrary
JS values (`JSValue.undef` when absent). Lifecycle callbacks are
modelled by registration flags (their bodies belong to the host layer);
`defer` and `cache` are the behavioral flags of the source. -/
structure Props where
  url : String
  method : Option String
  headers : JSValue
  params : JSValue
  data : JSValue
  timeout : Option Int
  auth : JSValue
  responseType : Option String
  xsrfCookieName : Option String
  xsrfHeaderName : Option String
  tag : Option String
  defer : Bool
  cache : Option Int
  onStart : Bool
  onSuccess : Bool
  onFailure : Bool
  onError : Bool

/-- An optional string prop as a JS value. -/
def optStrVal : Option String → JSValue
  | none => .undef
  | some s => .str s

/-- An optional number prop as a JS value. -/
def optIntVal : Option Int → JSValue
  | none => .undef
  | some n => .num n

/-- `getConfig(props)`: destructures the eleven whitelisted fields and
rebuilds an object literal with those keys, in the source's key order.
Lifecycle callbacks, `defer` and `cache` are not part of the config. -/
def getConfig (p : Props) : JSValue :=
  .obj [("url", .str p.url), ("method", optStrVal p.method),
        ("headers", p.headers), ("params", p.params),
        ("data", p.data), ("timeout", optIntVal p.timeout),
        ("auth", p.auth), ("responseType", optStrVal p.responseType),
        ("xsrfCookieName", optStrVal p.xsrfCookieName),
        ("xsrfHeaderName", optStrVal p.xsrfHeaderName),
        ("tag", optStrVal p.tag)]

/-- The undefined-key pruning in `fire()`:
`Object.keys(config).map((k) => config[k] === undefined ? delete config[k] : false)`. -/
def pruneUndefined : JSValue → JSValue
  | .obj kvs => .obj (kvs.filter (fun kv =>
      match kv.2 with
      | .undef => false
      | _ => true))
  | v => v

/-- `componentDidUpdate(prevProps)`, reduced to the number of `fire()`
calls it makes: if `JSON.stringify(getConfig(this.props)) ===
JSON.stringify(getConfig(prevProps))` it returns early (0 calls);
otherwise it calls `this.fire()` once unless `this.props.defer`. -/
def componentDidUpdateFires (props prevProps : Props) : Nat :=
  if jsonStringifyVal (getConfig props) = jsonStringifyVal (getConfig prevProps) then 0
  else if props.defer then 0 else 1

/-- A transport/cache response as retained by the component: the integer
status code, the payload `data`, and `config.method` of the underlying
request (absent on responses read back from the cache store, whose
entries hold only `{data, status}`). -/
structure Response where
  status : Nat
  data : JSValue
  configMethod : Option String

/-- The external store's `getState().requests`: a mapping from tag to a
record holding the cached `response`. Entries are typed as `Response`
per the external-interface contract of the store (it is written to only
with `{data, status}` payloads). -/
structure Store where
  requests : List (String × Response)

/-- Look up the cache entry for a tag in the store's `requests` map. -/
def lookupTag (t : String) : List (String × Response) → Option Response
  | [] => none
  | (k, r) :: rest => if k = t then some r else lookupTag t rest

/-- `getCachedResponse()`: `if (!store) return;` then
`const {response} = state.requests[tag] || {}; return response;`.
`none` is JS `undefined` (a hard miss). An undefined `tag` matches no
stored entry (no component ever writes one: the cache-write invariant
forbids it). -/
def getCachedResponse (store : Option Store) (p : Props) : Option Response :=
  match store with
  | none => none
  | some st =>
    match p.tag with
    | none => none
    | some t => lookupTag t st.requests

/-- A JavaScript error value: a rejected transport future's fault, an
`invariant(...)` violation from the `invariant` package, or a
`TypeError` from reading a property of `undefined`. The carried string
abstracts the error's stack/message text. -/
inductive JsError where
  | transportFault : String → JsError
  | invariantViolation : String → JsError
  | typeError : String → JsError
deriving DecidableEq

/-- `err.stack`, abstracted as the error's carried text. -/
def JsError.stack : JsError → String
  | .transportFault st => st
  | .invariantViolation msg => msg
  | .typeError msg => msg

/-- The payload of a `CACHE_REQUEST` dispatch:
`{tag, response: {data, status}, timeout: cache}`. -/
structure CacheIntent where
  tag : String
  respData : JSValue
  respStatus : Nat
  timeout : Int

/-- The component's state: `{status, response, error, tag}`, initialized
in the constructor to `{INIT, null, null, props.tag}`. `none` models
`null`/absent. -/
structure LifecycleState where
  status : Status
  response : Option Response
  error : Option JsError
  tag : Option String

/-- The constructor's initial state. -/
def initialState (p : Props) : LifecycleState :=
  { status := Status.INIT, response := none, error := none, tag := p.tag }

/-- The four literal `setState` payloads of the source: `{status: START}`,
`{status: SUCCESS, response}`, `{status: FAILURE, response}`,
`{status: ERROR, error: err}`. -/
inductive SetStateArg where
  | startOnly : SetStateArg
  | successResp : Response → SetStateArg
  | failureResp : Response → SetStateArg
  | errorErr : JsError → SetStateArg

/-- React's shallow `setState` merge for the four payloads: fields not
present in the payload keep their previous value. -/
def applySetState (s : LifecycleState) : SetStateArg → LifecycleState
  | .startOnly => { s with status := Status.START }
  | .successResp r => { s with status := Status.SUCCESS, response := some r }
  | .failureResp r => { s with status := Status.FAILURE, response := some r }
  | .errorErr e => { s with status := Status.ERROR, error := some e }

/-- Observable events of a single `fire()` invocation, in order:
state merges, user-callback invocations, the transport call (with the
pruned config), cache-store dispatches, `invariant` failures raised in
the response interceptor, and the final escalation
(`invariant(false, err.stack)`) out of the rejection handler. -/
inductive Event where
  | stateSet : LifecycleState → Event
  | callbackStart : Event
  | callbackSuccess : Response → Event
  | callbackFailure : Response → Event
  | callbackError : JsError → Event
  | transportCall : JSValue → Event
  | cacheDispatch : CacheIntent → Event
  | assertionFailure : String → Event
  | escalation : JsError → Event

/-- ASCII lowercasing of one character, as JS `toLowerCase` does for the
ASCII range (HTTP method names are ASCII). -/
def charToLower (c : Char) : Char :=
  if 'A' ≤ c ∧ c ≤ 'Z' then Char.ofNat (c.toNat + 32) else c

/-- JS `String.prototype.toLowerCase()` on ASCII strings. -/
def jsToLowerCase (s : String) : String :=
  String.mk (s.data.map charToLower)

/-- `const cacheableMethods = ['head', 'get', 'post'];` -/
def cacheableMethods : List String := ["head", "get", "post"]

/-- `cacheResponseInterceptor(response)`: returns the events it emits
(cache dispatches / assertion failures) together with its outcome —
`.ok (some r)` when it returns the response, `.ok none` when it falls
off the non-cacheable-method branch with a bare `return;` (JS
`undefined`), `.error e` when an `invariant` call throws (which rejects
the axios promise chain). -/
def cacheResponseInterceptor (p : Props) (store : Option Store) (response : Response) :
    List Event × Except JsError (Option Response) :=
  match p.cache with
  | none => ([], .ok (some response))
  | some cacheMs =>
    match response.configMethod with
    | none =>
      ([], .error (.typeError "Cannot read property toLowerCase of undefined"))
    | some m =>
      if (cacheableMethods.contains (jsToLowerCase m)) = false then
        ([], .ok none)
      else if store.isNone then
        let msg := "caching is only available when store is configured"
        ([Event.assertionFailure msg], .error (.invariantViolation msg))
      else
        match p.tag with
        | none =>
          let msg := "tag property is required for caching"
          ([Event.assertionFailure msg], .error (.invariantViolation msg))
        | some t =>
          let intent : CacheIntent :=
            { tag := t, respData := response.data,
              respStatus := response.status, timeout := cacheMs }
          ([Event.cacheDispatch intent], .ok (some response))

/-- The transport oracle: what `this.axios.request(config)`'s underlying
dispatch does for this invocation — resolve with a raw response (which
then passes through the response interceptor) or reject with a fault. -/
inductive TransportResult where
  | resolve : Response → TransportResult
  | reject : JsError → TransportResult

/-- `Math.round(response.status / 100)` for a natural status code:
JavaScript `Math.round` rounds half-up and `s / 100` is exact at the
half-integer boundaries, so the result is `(s + 50) / 100`. -/
def statusClass (status : Nat) : Nat := (status + 50) / 100

/-- The `.catch((err) => ...)` handler of `fire()`: merge
`{status: ERROR, error: err}`, invoke `onError` if registered, then
`invariant(false, err.stack)` — which throws a fresh invariant-violation
error carrying the original fault's stack text. -/
def errorPath (p : Props) (e : JsError) (s : LifecycleState) :
    List Event × LifecycleState :=
  let s2 := applySetState s (.errorErr e)
  (Event.stateSet s2 ::
    (if p.onError then [Event.callbackError e] else []) ++
      [Event.escalation (JsError.invariantViolation e.stack)], s2)

/-- A single `fire()` invocation, from component state `s`, given the
store context and the transport oracle. Mirrors the source: (1) cache
lookup — on a hit, merge `{status: SUCCESS, response: cached}` and invoke
`onSuccess` if registered, with no transport call; (2) otherwise build
and prune the config, merge `{status: START}` with `onStart` as the
`setState` callback, and issue the transport call; (3) on resolution the
response interceptor runs first, then the `.then` handler classifies by
`Math.round(status / 100)` (class 2 → SUCCESS/`onSuccess`, default →
FAILURE/`onFailure`); an interceptor that returned `undefined` makes
`response.status` throw a `TypeError` into the `.catch`; (4) any
rejection takes `errorPath`. -/
def fire (p : Props) (store : Option Store) (tr : TransportResult)
    (s : LifecycleState) : List Event × LifecycleState :=
  match getCachedResponse store p with
  | some cached =>
    let s1 := applySetState s (.successResp cached)
    (Event.stateSet s1 ::
      (if p.onSuccess then [Event.callbackSuccess cached] else []), s1)
  | none =>
    let config := pruneUndefined (getConfig p)
    let s1 := applySetState s .startOnly
    let startEvents :=
      Event.stateSet s1 :: (if p.onStart then [Event.callbackStart] else [])
    let afterCall := startEvents ++ [Event.transportCall config]
    match tr with
    | .reject e =>
      let res := errorPath p e s1
      (afterCall ++ res.1, res.2)
    | .resolve r =>
      let ic := cacheResponseInterceptor p store r
      match ic.2 with
      | .error e =>
        let res := errorPath p e s1
        (afterCall ++ ic.1 ++ res.1, res.2)
      | .ok none =>
        let e := JsError.typeError "Cannot read property status of undefined"
        let res := errorPath p e s1
        (afterCall ++ ic.1 ++ res.1, res.2)
      | .ok (some resp) =>
        if statusClass resp.status = 2 then
          let s2 := applySetState s1 (.successResp resp)
          (afterCall ++ ic.1 ++
            (Event.stateSet s2 ::
              (if p.onSuccess then [Event.callbackSuccess resp] else [])), s2)
        else
          let s2 := applySetState s1 (.failureResp resp)
          (afterCall ++ ic.1 ++
            (Event.stateSet s2 ::
              (if p.onFailure then [Event.callbackFailure resp] else [])), s2)

/-- The sequence of `status` values merged into state during a trace. -/
def statusTrace (evs : List Event) : List Status :=
  evs.filterMap fun e =>
    match e with
    | .stateSet st => some st.status
    | _ => none

/-- The responses passed to `onSuccess` during a trace. -/
def successCallbacks (evs : List Event) : List Response :=
  evs.filterMap fun e =>
    match e with
    | .callbackSuccess r => some r
    | _ => none

/-- The responses passed to `onFailure` during a trace. -/
def failureCallbacks (evs : List Event) : List Response :=
  evs.filterMap fun e =>
    match e with
    | .callbackFailure r => some r
    | _ => none

/-- The errors passed to `onError` during a trace. -/
def errorCallbacks (evs : List Event) : List JsError :=
  evs.filterMap fun e =>
    match e with
    | .callbackError er => some er
    | _ => none

/-- The faults escalated (re-raised) out of the rejection handler. -/
def escalationsOf (evs : List Event) : List JsError :=
  evs.filterMap fun e =>
    match e with
    | .escalation er => some er
    | _ => none

/-- How many terminal user callbacks (`onSuccess`/`onFailure`/`onError`)
were invoked during a trace (`onStart` is not a terminal callback). -/
def callbackCount (evs : List Event) : Nat :=
  (evs.filter fun e =>
    match e with
    | .callbackSuccess _ => true
    | .callbackFailure _ => true
    | .callbackError _ => true
    | _ => false).length

/-- How many transport calls a trace contains. -/
def transportCallCount (evs : List Event) : Nat :=
  (evs.filter fun e =>
    match e with
    | .transportCall _ => true
    | _ => false).length

/-- The cache-write intents dispatched to the store during a trace. -/
def cacheDispatches (evs : List Event) : List CacheIntent :=
  evs.filterMap fun e =>
    match e with
    | .cacheDispatch i => some i
    | _ => none

/-- Whether a trace contains a fatal assertion (`invariant`) failure. -/
def containsAssertion (evs : List Event) : Bool :=
  evs.any fun e =>
    match e with
    | .assertionFailure _ => true
    | _ => false

/-- Whether some transport call strictly precedes the first assertion
failure of the trace (`false` when the trace has no assertion failure at
all after a transport call, or the assertion comes first). -/
def transportPrecedesAssertion : List Event → Bool
  | [] => false
  | Event.transportCall _ :: rest => containsAssertion rest
  | Event.assertionFailure _ :: _ => false
  | _ :: rest => transportPrecedesAssertion rest

/-- A baseline set of props for concrete runs: a plain `get` of "/items",
no caching, not deferred, all four callbacks registered. -/
def baseProps : Props :=
  { url := "/items", method := some "get", headers := JSValue.undef,
    params := JSValue.undef, data := JSValue.undef, timeout := none,
    auth := JSValue.undef, responseType := none, xsrfCookieName := none,
    xsrfHeaderName := none, tag := none, defer := false, cache := none,
    onStart := true, onSuccess := true, onFailure := true, onError := true }

/-- The initial state of a component mounted with `baseProps`. -/
def state0 : LifecycleState := initialState baseProps

/-- A transport response with status 250 (a 2xx code) to a `get`. -/
def r250 : Response := { status := 250, data := JSValue.null, configMethod := some "get" }

/-- A transport response with status 199 (a 1xx code) to a `get`. -/
def r199 : Response := { status := 199, data := JSValue.null, configMethod := some "get" }

/-- The response `{status: 200, data: "X"}` held by the cache store. -/
def rCached : Response := { status := 200, data := JSValue.str "X", configMethod := none }

/-- A store holding `rCached` under tag `"t"`. -/
def storeT : Store := { requests := [("t", rCached)] }

/-- `baseProps` with tag `"t"` (matching `storeT`'s entry). -/
def propsTagT : Props := { baseProps with tag := some "t" }

/-- `baseProps` with caching configured: `cache=5000`, `tag="a"`. -/
def propsCacheA : Props := { baseProps with cache := some 5000, tag := some "a" }

/-- A 200 response to a `delete` request. -/
def rDelete : Response := { status := 200, data := JSValue.str "d", configMethod := some "delete" }

/-- A 200 response to a `get` request. -/
def rGet : Response := { status := 200, data := JSValue.str "d", configMethod := some "get" }

/-- `baseProps` with `cache=1000` and `tag` left undefined. -/
def propsNoTag : Props := { baseProps with cache := some 1000, tag := none }

/-- `baseProps` with headers `{a: 1, b: 2}`. -/
def propsHdrAB : Props :=
  { baseProps with headers := JSValue.obj [("a", .num 1), ("b", .num 2)] }

/-- `baseProps` with headers `{b: 2, a: 1}`: the same headers object as
`propsHdrAB` up to key insertion order. -/
def propsHdrBA : Props :=
  { baseProps with headers := JSValue.obj [("b", .num 2), ("a", .num 1)] }

/-- `propsHdrAB` with changed behavioral props only: deferred, `onSuccess`
dropped — the extracted config is untouched. -/
def propsHdrABDeferred : Props :=
  { propsHdrAB with defer := true, onSuccess := false }

/-- `baseProps` with params `{x: [undefined]}`. -/
def propsParamU : Props :=
  { baseProps with params := JSValue.obj [("x", .arr [.undef])] }

/-- `baseProps` with params `{x: [null]}`: a different JS value from
`propsParamU`'s params, with the same JSON serialization. -/
def propsParamN : Props :=
  { baseProps with params := JSValue.obj [("x", .arr [.null])] }

/-- `baseProps` with params `{y: 3}` (a config change that also changes
the serialization). -/
def propsParamY : Props :=
  { baseProps with params := JSValue.obj [("y", .num 3)] }

/-- A transport fault whose stack text is `"boom"`. -/
def eBoom : JsError := .transportFault "boom"

lemma statusTrace_append (a b : List Event) :
    statusTrace (a ++ b) = statusTrace a ++ statusTrace b := by
  simp [statusTrace]

lemma callbackCount_append (a b : List Event) :
    callbackCount (a ++ b) = callbackCount a + callbackCount b := by
  simp [callbackCount]

lemma applySetState_tag (s : LifecycleState) (a : SetStateArg) :
    (applySetState s a).tag = s.tag := by
  cases a <;> rfl

lemma interceptor_events_shape (p : Props) (store : Option Store) (r : Response) :
    (cacheResponseInterceptor p store r).1 = [] ∨
    (∃ i, (cacheResponseInterceptor p store r).1 = [Event.cacheDispatch i]) ∨
    (∃ m, (cacheResponseInterceptor p store r).1 = [Event.assertionFailure m]) := by
  unfold cacheResponseInterceptor
  rcases hca : p.cache with _ | c
  · exact Or.inl rfl
  · rcases hm : r.configMethod with _ | m
    · exact Or.inl rfl
    · dsimp only
      by_cases hcm : cacheableMethods.contains (jsToLowerCase m) = false
      · rw [if_pos hcm]
        exact Or.inl rfl
      · rw [if_neg hcm]
        rcases store with _ | st
        · exact Or.inr (Or.inr ⟨_, rfl⟩)
        · dsimp only [Option.isNone]
          rw [if_neg (by simp)]
          rcases htag : p.tag with _ | t
          · exact Or.inr (Or.inr ⟨_, rfl⟩)
          · exact Or.inr (Or.inl ⟨_, rfl⟩)

lemma interceptor_trace_empty (p : Props) (store : Option Store) (r : Response) :
    statusTrace (cacheResponseInterceptor p store r).1 = [] ∧
    callbackCount (cacheResponseInterceptor p store r).1 = 0 ∧
    transportCallCount (cacheResponseInterceptor p store r).1 = 0 := by
  rcases interceptor_events_shape p store r with h | ⟨i, h⟩ | ⟨m, h⟩ <;>
    simp [h, statusTrace, callbackCount, transportCallCount]

lemma statusTrace_nil : statusTrace [] = [] := rfl

lemma st_stateSet (x : LifecycleState) (l : List Event) :
    statusTrace (Event.stateSet x :: l) = x.status :: statusTrace l := rfl

lemma st_transport (c : JSValue) (l : List Event) :
    statusTrace (Event.transportCall c :: l) = statusTrace l := rfl

lemma st_escalation (e : JsError) (l : List Event) :
    statusTrace (Event.escalation e :: l) = statusTrace l := rfl

lemma st_if_start (b : Bool) :
    statusTrace (if b then [Event.callbackStart] else []) = [] := by
  cases b <;> rfl

lemma st_if_success (b : Bool) (r : Response) :
    statusTrace (if b then [Event.callbackSuccess r] else []) = [] := by
  cases b <;> rfl

lemma st_if_failure (b : Bool) (r : Response) :
    statusTrace (if b then [Event.callbackFailure r] else []) = [] := by
  cases b <;> rfl

lemma st_if_error (b : Bool) (e : JsError) :
    statusTrace (if b then [Event.callbackError e] else []) = [] := by
  cases b <;> rfl

lemma callbackCount_nil : callbackCount [] = 0 := rfl

lemma cc_stateSet (x : LifecycleState) (l : List Event) :
    callbackCount (Event.stateSet x :: l) = callbackCount l := rfl

lemma cc_escalation (e : JsError) (l : List Event) :
    callbackCount (Event.escalation e :: l) = callbackCount l := rfl

lemma cc_transport (c : JSValue) (l : List Event) :
    callbackCount (Event.transportCall c :: l) = callbackCount l := rfl

lemma cc_cbStart (l : List Event) :
    callbackCount (Event.callbackStart :: l) = callbackCount l := rfl

lemma cc_cbSuccess (r : Response) (l : List Event) :
    callbackCount (Event.callbackSuccess r :: l) = callbackCount l + 1 := rfl

lemma cc_cbFailure (r : Response) (l : List Event) :
    callbackCount (Event.callbackFailure r :: l) = callbackCount l + 1 := rfl

lemma cc_cbError (e : JsError) (l : List Event) :
    callbackCount (Event.callbackError e :: l) = callbackCount l + 1 := rfl

lemma cc_if_start (b : Bool) :
    callbackCount (if b then [Event.callbackStart] else []) = 0 := by
  cases b <;> rfl

lemma cc_if_success (b : Bool) (r : Response) :
    callbackCount (if b then [Event.callbackSuccess r] else []) =
      (if b then 1 else 0) := by
  cases b <;> rfl

lemma cc_if_failure (b : Bool) (r : Response) :
    callbackCount (if b then [Event.callbackFailure r] else []) =
      (if b then 1 else 0) := by
  cases b <;> rfl

lemma cc_if_error (b : Bool) (e : JsError) :
    callbackCount (if b then [Event.callbackError e] else []) =
      (if b then 1 else 0) := by
  cases b <;> rfl

/-- C1: refutation evidence. The spec claims classification by the
integer-divide-by-100 class of the status code (2xx → SUCCESS, other →
FAILURE), but the source computes `Math.round(response.status / 100)`:
status 250 gets class `round(2.5) = 3` and lands in FAILURE with
`onFailure` invoked, while status 199 gets class `round(1.99) = 2` and
lands in SUCCESS with `onSuccess` invoked — contradicting the claim (and
the component's own `onSuccess`/`onFailure` prop documentation, which
promises `onSuccess` exactly for 2XX responses). -/
theorem classification_rounds_not_truncates :
    statusClass 250 = 3 ∧ statusClass 199 = 2 ∧
    (fire baseProps none (.resolve r250) state0).2.status = Status.FAILURE ∧
    failureCallbacks (fire baseProps none (.resolve r250) state0).1 = [r250] ∧
    (fire baseProps none (.resolve r199) state0).2.status = Status.SUCCESS ∧
    successCallbacks (fire baseProps none (.resolve r199) state0).1 = [r199] :=
  ⟨rfl, rfl, rfl, rfl, rfl, rfl⟩

/-- C3: refutation evidence. For a response whose request method is not
in `{head, get, post}` (here `delete`) with caching configured, the
interceptor indeed produces no cache-write intent, but it does not
return the response: the bare `return;` yields `undefined`
(`Except.ok none`), not the forwarded response, so the transport
pipeline does not complete normally — the subsequent `.then` handler
reads `.status` of `undefined` and the 2xx `delete` response lands the
invocation in ERROR. -/
theorem interceptor_returns_undefined_for_uncacheable :
    (cacheResponseInterceptor propsCacheA (some storeT) rDelete).1 = [] ∧
    (cacheResponseInterceptor propsCacheA (some storeT) rDelete).2 = Except.ok none ∧
    (cacheResponseInterceptor propsCacheA (some storeT) rDelete).2 ≠
      Except.ok (some rDelete) ∧
    statusClass rDelete.status = 2 ∧
    (fire propsCacheA (some storeT) (.resolve rDelete) state0).2.status = Status.ERROR := by
  refine ⟨rfl, rfl, ?_, rfl, rfl⟩
  have h2 : (cacheResponseInterceptor propsCacheA (some storeT) rDelete).2 =
      Except.ok none := rfl
  rw [h2]
  simp

/-- C5: for every `fire()` invoked while the store holds a cache entry
for the current tag, the controller transitions directly to SUCCESS
carrying exactly the cached response, invokes `onSuccess` when
registered, and performs zero transport calls. -/
theorem cache_hit_success (p : Props) (st : Store) (t : String) (r : Response)
    (tr : TransportResult) (s : LifecycleState)
    (htag : p.tag = some t) (hent : lookupTag t st.requests = some r) :
    (fire p (some st) tr s).2.status = Status.SUCCESS ∧
    (fire p (some st) tr s).2.response = some r ∧
    transportCallCount (fire p (some st) tr s).1 = 0 ∧
    (p.onSuccess = true → successCallbacks (fire p (some st) tr s).1 = [r]) := by
  have hc : getCachedResponse (some st) p = some r := by
    simp [getCachedResponse, htag, hent]
  unfold fire
  rw [hc]
  refine ⟨rfl, rfl, ?_, ?_⟩
  · cases hS : p.onSuccess <;> simp [hS, transportCallCount]
  · intro hS
    simp [hS, successCallbacks]

/-- Witness for C5 at a concrete store and tag. -/
theorem cache_hit_success_witness :
    propsTagT.tag = some "t" ∧ lookupTag "t" storeT.requests = some rCached ∧
    (fire propsTagT (some storeT) (.resolve r250) state0).2.status = Status.SUCCESS ∧
    (fire propsTagT (some storeT) (.resolve r250) state0).2.response = some rCached ∧
    transportCallCount (fire propsTagT (some storeT) (.resolve r250) state0).1 = 0 ∧
    successCallbacks (fire propsTagT (some storeT) (.resolve r250) state0).1 = [rCached] := by
  have h := cache_hit_success propsTagT storeT "t" rCached (.resolve r250) state0 rfl rfl
  exact ⟨rfl, rfl, h.1, h.2.1, h.2.2.1, h.2.2.2 rfl⟩

/-- C6: counterexample. The headers objects `{a: 1, b: 2}` and
`{b: 2, a: 1}` are deeply structurally equal (key order is irrelevant to
deep equality), yet `JSON.stringify` serializes them differently, so the
update path fires a new request even though the extracted configs are
deeply equal — refuting "equal configs trigger no new fire()". -/
theorem deep_equal_configs_can_fire :
    deepStructuralEq (getConfig propsHdrAB) (getConfig propsHdrBA) = true ∧
    propsHdrAB.defer = false ∧
    componentDidUpdateFires propsHdrAB propsHdrBA = 1 :=
  ⟨by decide, rfl, by decide⟩

/-- C6 (amended): for every pair of successive parameter sets whose
extracted configs have equal `JSON.stringify` serializations (structural
equality up to key insertion order and undefined-key pruning), the
update path triggers no new `fire()` — even if lifecycle callbacks or
the deferred flag changed between the two parameter sets. -/
theorem equal_serialized_config_no_fire (p q : Props)
    (h : jsonStringifyVal (getConfig p) = jsonStringifyVal (getConfig q)) :
    componentDidUpdateFires p q = 0 := by
  simp [componentDidUpdateFires, h]

/-- Witness for the amended C6: only callbacks and the deferred flag
changed, so no fire is triggered. -/
theorem equal_serialized_config_no_fire_witness :
    jsonStringifyVal (getConfig propsHdrABDeferred) = jsonStringifyVal (getConfig propsHdrAB) ∧
    componentDidUpdateFires propsHdrABDeferred propsHdrAB = 0 :=
  ⟨rfl, equal_serialized_config_no_fire propsHdrABDeferred propsHdrAB rfl⟩

/-- C7: counterexample. The params `{x: [undefined]}` and `{x: [null]}`
are different JS values (the extracted configs differ in the whitelisted
`params` field, and are not deeply structurally equal), yet both
serialize to the same JSON text, so the non-deferred update path
triggers zero new `fire()` — refuting "configs differing in a
whitelisted field trigger exactly one fire when not deferred". -/
theorem unequal_configs_can_skip_fire :
    getConfig propsParamU ≠ getConfig propsParamN ∧
    deepStructuralEq (getConfig propsParamU) (getConfig propsParamN) = false ∧
    propsParamU.defer = false ∧
    componentDidUpdateFires propsParamU propsParamN = 0 := by
  refine ⟨?_, by decide, rfl, by decide⟩
  intro h
  simp [getConfig, propsParamU, propsParamN, baseProps] at h

/-- C7 (amended): for every pair of successive parameter sets whose
extracted configs have different `JSON.stringify` serializations, the
update path triggers exactly one new `fire()` when the deferred flag is
false, and zero when it is true. -/
theorem unequal_serialized_config_fires (p q : Props)
    (h : jsonStringifyVal (getConfig p) ≠ jsonStringifyVal (getConfig q)) :
    (p.defer = false → componentDidUpdateFires p q = 1) ∧
    (p.defer = true → componentDidUpdateFires p q = 0) := by
  constructor <;> intro hd <;> simp [componentDidUpdateFires, h, hd]

/-- Witness for the amended C7 at a concrete changed config. -/
theorem unequal_serialized_config_fires_witness :
    componentDidUpdateFires propsParamY baseProps = 1 :=
  (unequal_serialized_config_fires propsParamY baseProps (by decide)).1 rfl

/-- C2: counterexample. A `fire()` invoked while the store holds a cache
entry for the current tag merges SUCCESS directly: its status sequence
is `[SUCCESS]` and never passes through START — refuting "no fire()
invocation skips START (including the cache-hit path)". -/
theorem cacheHit_skips_START :
    statusTrace (fire propsTagT (some storeT) (.resolve rGet) state0).1 =
      [Status.SUCCESS] ∧
    Status.START ∉ statusTrace (fire propsTagT (some storeT) (.resolve rGet) state0).1 :=
  ⟨rfl, by decide⟩

/-- C2 (amended): for every cache-miss `fire()` invocation the status
sequence is exactly START followed by exactly one terminal state
(SUCCESS, FAILURE or ERROR); a cache-hit invocation instead transitions
directly to SUCCESS, skipping START. -/
theorem fire_status_sequence (p : Props) (store : Option Store)
    (tr : TransportResult) (s : LifecycleState) :
    (getCachedResponse store p = none →
      ∃ t, statusTrace (fire p store tr s).1 = [Status.START, t] ∧
        (t = Status.SUCCESS ∨ t = Status.FAILURE ∨ t = Status.ERROR)) ∧
    (∀ r, getCachedResponse store p = some r →
      statusTrace (fire p store tr s).1 = [Status.SUCCESS]) := by
  have hint : ∀ r, statusTrace (cacheResponseInterceptor p store r).1 = [] :=
    fun r => (interceptor_trace_empty p store r).1
  constructor
  · intro hc
    simp only [fire, errorPath, hc]
    rcases tr with r | e
    · rcases hic : (cacheResponseInterceptor p store r).2 with e | orr
      · simp only [hic]
        refine ⟨Status.ERROR, ?_, Or.inr (Or.inr rfl)⟩
        simp [statusTrace_append, st_stateSet, st_transport, st_escalation,
          st_if_start, st_if_error, statusTrace_nil, hint, applySetState]
      · rcases orr with _ | resp
        · simp only [hic]
          refine ⟨Status.ERROR, ?_, Or.inr (Or.inr rfl)⟩
          simp [statusTrace_append, st_stateSet, st_transport, st_escalation,
            st_if_start, st_if_error, statusTrace_nil, hint, applySetState]
        · simp only [hic]
          by_cases hcl : statusClass resp.status = 2
          · rw [if_pos hcl]
            refine ⟨Status.SUCCESS, ?_, Or.inl rfl⟩
            simp [statusTrace_append, st_stateSet, st_transport,
              st_if_start, st_if_success, statusTrace_nil, hint, applySetState]
          · rw [if_neg hcl]
            refine ⟨Status.FAILURE, ?_, Or.inr (Or.inl rfl)⟩
            simp [statusTrace_append, st_stateSet, st_transport,
              st_if_start, st_if_failure, statusTrace_nil, hint, applySetState]
    · refine ⟨Status.ERROR, ?_, Or.inr (Or.inr rfl)⟩
      simp [statusTrace_append, st_stateSet, st_transport, st_escalation,
        st_if_start, st_if_error, statusTrace_nil, applySetState]
  · intro r hc
    simp only [fire, hc]
    simp [st_stateSet, st_if_success, statusTrace_nil, applySetState]

/-- Witness for the amended C2 at a concrete cache-miss run. -/
theorem fire_status_sequence_witness :
    ∃ t, statusTrace (fire baseProps none (.resolve r250) state0).1 =
        [Status.START, t] ∧
      (t = Status.SUCCESS ∨ t = Status.FAILURE ∨ t = Status.ERROR) :=
  (fire_status_sequence baseProps none (.resolve r250) state0).1 rfl

/-- C4: counterexample. Configuring `cache=1000` with `tag` undefined and
firing (store attached, transport resolving a 200 `get`) does raise a
fatal assertion, but only inside the response interceptor: the trace
contains exactly one transport call, and that call precedes the
assertion failure — refuting "a fatal assertion is raised before any
transport call is made". -/
theorem assertion_after_transport_call :
    propsNoTag.cache = some 1000 ∧ propsNoTag.tag = none ∧
    containsAssertion (fire propsNoTag (some storeT) (.resolve rGet) state0).1 = true ∧
    transportPrecedesAssertion (fire propsNoTag (some storeT) (.resolve rGet) state0).1 = true ∧
    transportCallCount (fire propsNoTag (some storeT) (.resolve rGet) state0).1 = 1 ∧
    (fire propsNoTag (some storeT) (.resolve rGet) state0).2.status = Status.ERROR :=
  ⟨rfl, rfl, rfl, rfl, rfl, rfl⟩

/-- C4 (amended): for every configuration with a defined cache duration
and an undefined tag whose transport resolves a response with a
cacheable method, a fatal assertion is raised — in the response
interceptor, after the transport call (never before it) — and the
invocation lands in ERROR. -/
theorem cache_without_tag_assertion (p : Props) (store : Option Store)
    (c : Int) (r : Response) (m : String) (s : LifecycleState)
    (hcache : p.cache = some c) (htag : p.tag = none)
    (hm : r.configMethod = some m)
    (hcm : cacheableMethods.contains (jsToLowerCase m) = true) :
    containsAssertion (fire p store (.resolve r) s).1 = true ∧
    transportPrecedesAssertion (fire p store (.resolve r) s).1 = true ∧
    (fire p store (.resolve r) s).2.status = Status.ERROR := by
  have hc : getCachedResponse store p = none := by
    cases store <;> simp [getCachedResponse, htag]
  have hic : ∃ msg, cacheResponseInterceptor p store r =
      ([Event.assertionFailure msg], .error (.invariantViolation msg)) := by
    unfold cacheResponseInterceptor
    rw [hcache, hm]
    dsimp only
    simp only [hcm]
    rw [if_neg (by decide : ¬(true = false))]
    rcases store with _ | st
    · exact ⟨_, rfl⟩
    · dsimp only [Option.isNone]
      rw [if_neg (by simp)]
      rw [htag]
      exact ⟨_, rfl⟩
  rcases hic with ⟨msg, hiceq⟩
  simp only [fire, errorPath, hc, hiceq]
  refine ⟨?_, ?_, rfl⟩
  · cases hS : p.onStart <;> cases hE : p.onError <;>
      simp [hS, hE, containsAssertion]
  · cases hS : p.onStart <;> cases hE : p.onError <;>
      simp [hS, hE, transportPrecedesAssertion, containsAssertion]

/-- Witness for the amended C4 at a concrete run. -/
theorem cache_without_tag_assertion_witness :
    containsAssertion (fire propsNoTag (some storeT) (.resolve rGet) state0).1 = true ∧
    transportPrecedesAssertion (fire propsNoTag (some storeT) (.resolve rGet) state0).1 = true ∧
    (fire propsNoTag (some storeT) (.resolve rGet) state0).2.status = Status.ERROR :=
  cache_without_tag_assertion propsNoTag (some storeT) 1000 rGet "get" state0
    rfl rfl rfl (by decide)

/-- C8: for every completed `fire()` invocation, at most one of the
terminal callbacks `onSuccess`/`onFailure`/`onError` is invoked, and
when all three are registered exactly one is invoked — never zero, never
more than one per completed request. -/
theorem exactly_one_terminal_callback (p : Props) (store : Option Store)
    (tr : TransportResult) (s : LifecycleState) :
    callbackCount (fire p store tr s).1 ≤ 1 ∧
    (p.onSuccess = true → p.onFailure = true → p.onError = true →
      callbackCount (fire p store tr s).1 = 1) := by
  have hint : ∀ r, callbackCount (cacheResponseInterceptor p store r).1 = 0 :=
    fun r => (interceptor_trace_empty p store r).2.1
  rcases hc : getCachedResponse store p with _ | cached
  · simp only [fire, errorPath, hc]
    rcases tr with r | e
    · rcases hic : (cacheResponseInterceptor p store r).2 with e | orr
      · simp only [hic]
        constructor
        · cases hE : p.onError <;>
            simp [hE, callbackCount_append, cc_stateSet, cc_escalation,
              cc_transport, cc_cbStart, cc_cbError, cc_if_start,
              callbackCount_nil, hint]
        · intro _ _ hE
          simp [hE, callbackCount_append, cc_stateSet, cc_escalation,
            cc_transport, cc_cbStart, cc_cbError, cc_if_start,
            callbackCount_nil, hint]
      · rcases orr with _ | resp
        · simp only [hic]
          constructor
          · cases hE : p.onError <;>
              simp [hE, callbackCount_append, cc_stateSet, cc_escalation,
                cc_transport, cc_cbStart, cc_cbError, cc_if_start,
                callbackCount_nil, hint]
          · intro _ _ hE
            simp [hE, callbackCount_append, cc_stateSet, cc_escalation,
              cc_transport, cc_cbStart, cc_cbError, cc_if_start,
              callbackCount_nil, hint]
        · simp only [hic]
          by_cases hcl : statusClass resp.status = 2
          · rw [if_pos hcl]
            constructor
            · cases hS2 : p.onSuccess <;>
                simp [hS2, callbackCount_append, cc_stateSet, cc_transport,
                  cc_cbStart, cc_cbSuccess, cc_if_start, callbackCount_nil, hint]
            · intro hS2 _ _
              simp [hS2, callbackCount_append, cc_stateSet, cc_transport,
                cc_cbStart, cc_cbSuccess, cc_if_start, callbackCount_nil, hint]
          · rw [if_neg hcl]
            constructor
            · cases hF : p.onFailure <;>
                simp [hF, callbackCount_append, cc_stateSet, cc_transport,
                  cc_cbStart, cc_cbFailure, cc_if_start, callbackCount_nil, hint]
            · intro _ hF _
              simp [hF, callbackCount_append, cc_stateSet, cc_transport,
                cc_cbStart, cc_cbFailure, cc_if_start, callbackCount_nil, hint]
    · constructor
      · cases hE : p.onError <;>
          simp [hE, callbackCount_append, cc_stateSet, cc_escalation,
            cc_transport, cc_cbStart, cc_cbError, cc_if_start, callbackCount_nil]
      · intro _ _ hE
        simp [hE, callbackCount_append, cc_stateSet, cc_escalation,
          cc_transport, cc_cbStart, cc_cbError, cc_if_start, callbackCount_nil]
  · simp only [fire, hc]
    constructor
    · cases hS2 : p.onSuccess <;>
        simp [hS2, cc_stateSet, cc_cbSuccess, callbackCount_nil]
    · intro hS2 _ _
      simp [hS2, cc_stateSet, cc_cbSuccess, callbackCount_nil]

/-- Witness for C8 at a concrete completed run with all callbacks
registered. -/
theorem exactly_one_terminal_callback_witness :
    callbackCount (fire baseProps none (.resolve r250) state0).1 = 1 :=
  (exactly_one_terminal_callback baseProps none (.resolve r250) state0).2 rfl rfl rfl

/-- C9: counterexample. On a transport rejection with fault `eBoom`, the
controller does record ERROR with `eBoom` in the `error` field, but what
it escalates is a fresh invariant-violation error built from
`invariant(false, err.stack)` — the original fault object is never
re-raised — refuting "escalates (re-raises) the original fault". -/
theorem escalated_fault_not_original :
    (fire baseProps none (.reject eBoom) state0).2.status = Status.ERROR ∧
    (fire baseProps none (.reject eBoom) state0).2.error = some eBoom ∧
    escalationsOf (fire baseProps none (.reject eBoom) state0).1 =
      [JsError.invariantViolation "boom"] ∧
    eBoom ∉ escalationsOf (fire baseProps none (.reject eBoom) state0).1 :=
  ⟨rfl, rfl, rfl, by decide⟩

/-- C9 (amended): for every transport rejection on a cache miss, the
controller transitions to ERROR with the causing fault stored in the
`error` field, invokes `onError` (with that fault) when registered, and
then — after the state is recorded, as the last event of the invocation
— escalates a fresh invariant-violation error carrying the original
fault's stack text (not the original fault object), so the failure is
never swallowed silently. -/
theorem reject_error_path (p : Props) (store : Option Store) (e : JsError)
    (s : LifecycleState) (hc : getCachedResponse store p = none) :
    (fire p store (.reject e) s).2.status = Status.ERROR ∧
    (fire p store (.reject e) s).2.error = some e ∧
    (p.onError = true → errorCallbacks (fire p store (.reject e) s).1 = [e]) ∧
    escalationsOf (fire p store (.reject e) s).1 =
      [JsError.invariantViolation e.stack] ∧
    (fire p store (.reject e) s).1.getLast? =
      some (Event.escalation (JsError.invariantViolation e.stack)) ∧
    statusTrace (fire p store (.reject e) s).1 = [Status.START, Status.ERROR] := by
  simp only [fire, errorPath, hc]
  refine ⟨rfl, rfl, ?_, ?_, ?_, ?_⟩
  · intro hE
    cases hS : p.onStart <;> simp [hS, hE, errorCallbacks]
  · cases hS : p.onStart <;> cases hE : p.onError <;>
      simp [hS, hE, escalationsOf]
  · cases hS : p.onStart <;> cases hE : p.onError <;>
      simp [hS, hE]
  · cases hS : p.onStart <;> cases hE : p.onError <;>
      simp [hS, hE, statusTrace, applySetState]

/-- Witness for the amended C9 at a concrete rejected run. -/
theorem reject_error_path_witness :
    (fire baseProps none (.reject eBoom) state0).2.error = some eBoom ∧
    errorCallbacks (fire baseProps none (.reject eBoom) state0).1 = [eBoom] ∧
    escalationsOf (fire baseProps none (.reject eBoom) state0).1 =
      [JsError.invariantViolation eBoom.stack] := by
  have h := reject_error_path baseProps none eBoom state0 rfl
  exact ⟨h.2.1, h.2.2.1 rfl, h.2.2.2.1⟩

/-- C10: frame conditions of the lifecycle transitions. Every `setState`
merge leaves `tag` unchanged and never resets `response` or `error` to
null (each field is either preserved or set to a new non-null value);
the START merge touches only `status`; SUCCESS and FAILURE merges leave
any prior `error` in place (so a SUCCESS after an earlier ERROR keeps
the stale error object); the ERROR merge leaves any prior `response` in
place; the state's `tag` is set in the constructor from the initial
props and no `fire()` ever changes it. -/
theorem transition_frame_conditions :
    (∀ s a, (applySetState s a).tag = s.tag) ∧
    (∀ s a, (applySetState s a).response = s.response ∨
      ∃ r, (applySetState s a).response = some r) ∧
    (∀ s a, (applySetState s a).error = s.error ∨
      ∃ e, (applySetState s a).error = some e) ∧
    (∀ s, applySetState s SetStateArg.startOnly =
      { s with status := Status.START }) ∧
    (∀ s r, (applySetState s (SetStateArg.successResp r)).error = s.error) ∧
    (∀ s r, (applySetState s (SetStateArg.failureResp r)).error = s.error) ∧
    (∀ s e, (applySetState s (SetStateArg.errorErr e)).response = s.response) ∧
    (∀ p, (initialState p).tag = p.tag) ∧
    (∀ p store tr s, (fire p store tr s).2.tag = s.tag) := by
  refine ⟨applySetState_tag, ?_, ?_, fun s => rfl, fun s r => rfl,
    fun s r => rfl, fun s e => rfl, fun p => rfl, ?_⟩
  · intro s a
    cases a
    · exact Or.inl rfl
    · exact Or.inr ⟨_, rfl⟩
    · exact Or.inr ⟨_, rfl⟩
    · exact Or.inl rfl
  · intro s a
    cases a
    · exact Or.inl rfl
    · exact Or.inl rfl
    · exact Or.inl rfl
    · exact Or.inr ⟨_, rfl⟩
  · intro p store tr s
    rcases hc : getCachedResponse store p with _ | cached
    · simp only [fire, errorPath, hc]
      rcases tr with r | e
      · rcases hic : (cacheResponseInterceptor p store r).2 with e | orr
        · simp [hic, applySetState_tag]
        · rcases orr with _ | resp
          · simp [hic, applySetState_tag]
          · simp only [hic]
            split <;> simp [applySetState_tag]
      · simp [applySetState_tag]
    · simp [fire, hc, applySetState_tag]
